import Mathlib

/-!
Verification of the admission-control middleware of this repository
(backend/src/middleware/rate_limit_middleware.py): a sliding-window rate
limiter, a TTL response cache, a retry queue, and the request pipeline
built from them.  Timestamps are modelled as integers; Python dicts keyed
by strings are modelled as association lists with unique keys.
-/

/-- Configuration of one limit class (dataclass RateLimitConfig:
requests per window, window length in seconds). -/
structure RateLimitConfig where
  requests : Nat
  window : Int
deriving DecidableEq

/-- The three predefined limit classes (the default_limits dict built in
RateLimitManager.__init__); none means the key is absent from the dict. -/
def lookupLimit (limit_type : String) : Option RateLimitConfig :=
  if limit_type = "unauthenticated" then some ⟨50, 3600⟩
  else if limit_type = "authenticated" then some ⟨100, 3600⟩
  else if limit_type = "api_external" then some ⟨60, 60⟩
  else none

/-- The lookup with fallback used by is_allowed and get_reset_time:
self.default_limits.get(limit_type, self.default_limits["authenticated"]). -/
def getLimitConfig (limit_type : String) : RateLimitConfig :=
  (lookupLimit limit_type).getD ⟨100, 3600⟩

/-- State of RateLimitManager: self.requests, a defaultdict mapping
identifier strings (the key is the identifier alone, not an
(identifier, limit class) pair) to time-ordered deques of timestamps. -/
structure RateLimitManager where
  requests : List (String × List Int)
deriving DecidableEq

/-- Read the deque of an identifier; a missing key acts as the empty deque
(collections.defaultdict(deque)). -/
def getDeque (m : RateLimitManager) (identifier : String) : List Int :=
  (m.requests.lookup identifier).getD []

/-- Write back the deque of an identifier (in-place mutation of the dict
entry in the source). -/
def setDeque (m : RateLimitManager) (identifier : String) (times : List Int) :
    RateLimitManager :=
  ⟨(identifier, times) :: m.requests.filter (fun kv => !(kv.1 == identifier))⟩

/-- The purge loop of is_allowed: while request_times and
request_times[0] <= now - window: request_times.popleft(). -/
def purgeFront (now window : Int) : List Int → List Int
  | [] => []
  | t :: ts => if t ≤ now - window then purgeFront now window ts else t :: ts

/-- Core of RateLimitManager.is_allowed for a given limit configuration:
purge stale timestamps, reject when the ceiling is reached, otherwise
append now and admit.  Returns the decision and the updated deque. -/
def is_allowed_core (cfg : RateLimitConfig) (now : Int) (times : List Int) :
    Bool × List Int :=
  let purged := purgeFront now cfg.window times
  if cfg.requests ≤ purged.length then (false, purged)
  else (true, purged ++ [now])

/-- RateLimitManager.is_allowed: resolve the limit configuration (with the
authenticated fallback), run the core on the deque of the identifier, and
store the updated deque back under the identifier. -/
def is_allowed (m : RateLimitManager) (now : Int) (identifier limit_type : String) :
    Bool × RateLimitManager :=
  let cfg := getLimitConfig limit_type
  let r := is_allowed_core cfg now (getDeque m identifier)
  (r.1, setDeque m identifier r.2)

/-- RateLimitManager.get_reset_time: now when the deque of the identifier
is empty, otherwise the oldest stored timestamp plus the window. -/
def get_reset_time (m : RateLimitManager) (now : Int) (identifier limit_type : String) : Int :=
  match getDeque m identifier with
  | [] => now
  | t :: _ => t + (getLimitConfig limit_type).window

/-- Run a sequence of is_allowed calls (time, identifier, limit type),
returning the list of decisions and the final manager state. -/
def runCalls (m : RateLimitManager) :
    List (Int × String × String) → List Bool × RateLimitManager
  | [] => ([], m)
  | (now, i, lt) :: rest =>
    let r := is_allowed m now i lt
    let rr := runCalls r.2 rest
    (r.1 :: rr.1, rr.2)

theorem purgeFront_eq_dropWhile (now window : Int) (l : List Int) :
    purgeFront now window l = l.dropWhile (fun t => decide (t ≤ now - window)) := by
  induction l with
  | nil => rfl
  | cons t ts ih =>
    by_cases hc : t ≤ now - window
    · simp [purgeFront, List.dropWhile, hc, ih]
    · simp [purgeFront, List.dropWhile, hc]

/-- C1: is_allowed first trims from the front of the deque of the
identifier every timestamp at or before now - windowSeconds, then rejects
without appending when at least maxRequests timestamps remain, and
otherwise appends now and admits; with maxRequests = 2 and
windowSeconds = 60, three sequential calls at times 0, 1, 2 yield
true, true, false. -/
theorem C1_window_algorithm :
    (∀ cfg now times, is_allowed_core cfg now times =
      (let purged := times.dropWhile (fun t => decide (t ≤ now - cfg.window))
       if cfg.requests ≤ purged.length then (false, purged)
       else (true, purged ++ [now]))) ∧
    is_allowed_core ⟨2, 60⟩ 0 [] = (true, [0]) ∧
    is_allowed_core ⟨2, 60⟩ 1 [0] = (true, [0, 1]) ∧
    is_allowed_core ⟨2, 60⟩ 2 [0, 1] = (false, [0, 1]) := by
  refine ⟨?_, by decide, by decide, by decide⟩
  intro cfg now times
  simp [is_allowed_core, purgeFront_eq_dropWhile]

/-- The call sequence refuting C2: fifty admissions for identifier u under
the authenticated class, then one check for u under the unauthenticated
class. -/
def c2Calls : List (Int × String × String) :=
  (List.replicate 50 ((0 : Int), "u", "authenticated")) ++
    [((0 : Int), "u", "unauthenticated")]

/-- C2 counterexample: fifty admissions recorded under the authenticated
class alone (its ceiling is 100, so all fifty are admitted) make the next
unauthenticated check for the same identifier reject, because the
unauthenticated ceiling of 50 is met by timestamps recorded under the
other class: the windows are keyed by identifier only and are shared
across limit classes, not separate per class. -/
theorem C2_cex :
    (runCalls ⟨[]⟩ c2Calls).1 = List.replicate 50 true ++ [false] := by decide

theorem getDeque_setDeque_self (m : RateLimitManager) (i : String) (l : List Int) :
    getDeque (setDeque m i l) i = l := by
  simp [getDeque, setDeque, List.lookup]

theorem mem_purgeFront_append (now window x : Int) (hx : ¬ x ≤ now - window)
    (l : List Int) : x ∈ purgeFront now window (l ++ [x]) := by
  induction l with
  | nil => simp [purgeFront, hx]
  | cons t ts ih =>
    by_cases hc : t ≤ now - window
    · simpa [purgeFront, hc] using ih
    · simp [purgeFront, hc]

theorem is_allowed_true_deque (m : RateLimitManager) (now : Int) (i lt : String)
    (h : (is_allowed m now i lt).1 = true) :
    getDeque (is_allowed m now i lt).2 i
      = purgeFront now (getLimitConfig lt).window (getDeque m i) ++ [now] := by
  by_cases hc : (getLimitConfig lt).requests
      ≤ (purgeFront now (getLimitConfig lt).window (getDeque m i)).length
  · simp [is_allowed, is_allowed_core, hc] at h
  · simp [is_allowed, is_allowed_core, hc, getDeque_setDeque_self]

/-- C2 amended: the limiter keys its windows by identifier alone, so an
admission recorded under one limit class counts toward the window of every
other limit class of the same identifier: a timestamp admitted under class
lt is still present, after purging, in the sequence that a later check
under any class sees, whenever it is still inside that window. -/
theorem C2_shared_window (m m' : RateLimitManager) (now now' : Int)
    (i lt lt' : String)
    (h : is_allowed m now i lt = (true, m'))
    (hw : now' - (getLimitConfig lt').window < now) :
    now ∈ purgeFront now' (getLimitConfig lt').window (getDeque m' i) := by
  have hx : ¬ now ≤ now' - (getLimitConfig lt').window := not_le.mpr hw
  have h1 : (is_allowed m now i lt).1 = true := by rw [h]
  have h2 : (is_allowed m now i lt).2 = m' := by rw [h]
  have hd := is_allowed_true_deque m now i lt h1
  rw [h2] at hd
  rw [hd]
  exact mem_purgeFront_append now' (getLimitConfig lt').window now hx _

theorem C2_shared_window_witness :
    is_allowed ⟨[]⟩ 0 "x" "api_external" = (true, ⟨[("x", [0])]⟩) ∧
    (1 : Int) - (getLimitConfig "unauthenticated").window < 0 ∧
    (0 : Int) ∈ purgeFront 1 (getLimitConfig "unauthenticated").window
      (getDeque ⟨[("x", [0])]⟩ "x") :=
  ⟨by decide, by decide,
    C2_shared_window ⟨[]⟩ ⟨[("x", [0])]⟩ 0 1 "x" "api_external" "unauthenticated"
      (by decide) (by decide)⟩

/-- C7: get_reset_time returns the oldest stored timestamp plus the window
when the window of the identifier is non-empty, and now when it is empty;
the derived Retry-After value max(0, resetTime - now) is never negative. -/
theorem C7_reset_time (m : RateLimitManager) (now : Int) (i lt : String) :
    (getDeque m i = [] → get_reset_time m now i lt = now) ∧
    (∀ t ts, getDeque m i = t :: ts →
      get_reset_time m now i lt = t + (getLimitConfig lt).window) ∧
    0 ≤ max 0 (get_reset_time m now i lt - now) := by
  refine ⟨?_, ?_, le_max_left 0 _⟩
  · intro h; simp [get_reset_time, h]
  · intro t ts h; simp [get_reset_time, h]

theorem C7_reset_time_witness :
    get_reset_time ⟨[("x", [5])]⟩ 7 "x" "authenticated" = 5 + 3600 ∧
    get_reset_time ⟨[]⟩ 7 "x" "authenticated" = 7 ∧
    0 ≤ max 0 (get_reset_time ⟨[("x", [5])]⟩ 7 "x" "authenticated" - 7) :=
  ⟨(C7_reset_time ⟨[("x", [5])]⟩ 7 "x" "authenticated").2.1 5 [] (by decide),
   (C7_reset_time ⟨[]⟩ 7 "x" "authenticated").1 (by decide),
   (C7_reset_time ⟨[("x", [5])]⟩ 7 "x" "authenticated").2.2⟩

/-- C10: for a limit type outside the three configured names, is_allowed
and get_reset_time fall back to the authenticated configuration
(100 requests per 3600 seconds) and behave exactly as for authenticated;
the dict lookup uses a default, so both functions stay total. -/
theorem C10_unknown_limit_type (lt : String)
    (h1 : lt ≠ "unauthenticated") (h2 : lt ≠ "authenticated")
    (h3 : lt ≠ "api_external") :
    getLimitConfig lt = ⟨100, 3600⟩ ∧
    (∀ m now i, is_allowed m now i lt = is_allowed m now i "authenticated") ∧
    (∀ m now i, get_reset_time m now i lt = get_reset_time m now i "authenticated") := by
  have hc : getLimitConfig lt = ⟨100, 3600⟩ := by
    simp [getLimitConfig, lookupLimit, h1, h2, h3]
  have hauth : getLimitConfig "authenticated" = ⟨100, 3600⟩ := by decide
  refine ⟨hc, ?_, ?_⟩
  · intro m now i
    simp only [is_allowed, hc, hauth]
  · intro m now i
    simp only [get_reset_time, hc, hauth]

theorem C10_unknown_limit_type_witness :
    getLimitConfig "bogus" = ⟨100, 3600⟩ ∧
    is_allowed ⟨[]⟩ 0 "x" "bogus" = is_allowed ⟨[]⟩ 0 "x" "authenticated" ∧
    get_reset_time ⟨[]⟩ 0 "x" "bogus" = get_reset_time ⟨[]⟩ 0 "x" "authenticated" :=
  have h := C10_unknown_limit_type "bogus" (by decide) (by decide) (by decide)
  ⟨h.1, h.2.1 ⟨[]⟩ 0 "x", h.2.2 ⟨[]⟩ 0 "x"⟩

/-- A queued invocation as built by RequestQueue.add_request, reduced to
the fields that drive the retry accounting: an id standing for the
func/args pair, and retry_count. -/
structure QItem where
  id : Nat
  retry_count : Nat
deriving DecidableEq

/-- Sequential execution of RequestQueue._process_queue by a single drain
worker.  The oracle fails gives, for an item id and its current
retry_count, whether that handler execution raises.  The result is the
trace of handler executions (each element is the item as popped).  Fuel
only truncates the trace; the loop itself stops when the queue is empty.
The 1 second backoff before a re-append has no effect on the sequential
order and is not represented. -/
def drainTrace (fails : Nat → Nat → Bool) : Nat → List QItem → List QItem
  | 0, _ => []
  | _ + 1, [] => []
  | fuel + 1, item :: rest =>
    if fails item.id item.retry_count then
      if item.retry_count + 1 < 3 then
        item :: drainTrace fails fuel (rest ++ [⟨item.id, item.retry_count + 1⟩])
      else
        item :: drainTrace fails fuel rest
    else
      item :: drainTrace fails fuel rest

/-- Number of handler executions of a given id in a drain trace. -/
def execCount (i : Nat) (trace : List QItem) : Nat :=
  (trace.filter (fun item => item.id == i)).length

/-- Remaining execution budget of a given id in a queue: each occurrence
contributes 3 minus its current retry_count. -/
def retryPotential (i : Nat) : List QItem → Nat
  | [] => 0
  | item :: rest =>
    (if item.id = i then 3 - item.retry_count else 0) + retryPotential i rest

theorem execCount_cons (i : Nat) (a : QItem) (l : List QItem) :
    execCount i (a :: l) = (if a.id = i then 1 else 0) + execCount i l := by
  by_cases h : a.id = i <;> simp [execCount, List.filter_cons, h, Nat.add_comm]

theorem retryPotential_append (i : Nat) (l l' : List QItem) :
    retryPotential i (l ++ l') = retryPotential i l + retryPotential i l' := by
  induction l with
  | nil => simp [retryPotential]
  | cons a t ih => simp [retryPotential, ih, Nat.add_assoc]

theorem retryPotential_singleton (i : Nat) (a : QItem) :
    retryPotential i [a] = if a.id = i then 3 - a.retry_count else 0 := by
  simp [retryPotential]

theorem drain_execCount_le (fails : Nat → Nat → Bool) (i : Nat) :
    ∀ fuel q, (∀ item ∈ q, item.retry_count ≤ 2) →
      execCount i (drainTrace fails fuel q) ≤ retryPotential i q := by
  intro fuel
  induction fuel with
  | zero => intro q _; simp [drainTrace, execCount]
  | succ n ih =>
    intro q hq
    match q with
    | [] => simp [drainTrace, execCount]
    | item :: rest =>
      have hc : item.retry_count ≤ 2 := hq item (by simp)
      have hrest : ∀ it ∈ rest, it.retry_count ≤ 2 := fun it hit => hq it (by simp [hit])
      by_cases hf : fails item.id item.retry_count
      · by_cases hlt : item.retry_count + 1 < 3
        · have hq' : ∀ it ∈ rest ++ [(⟨item.id, item.retry_count + 1⟩ : QItem)],
              it.retry_count ≤ 2 := by
            intro it hit
            rcases List.mem_append.mp hit with h | h
            · exact hrest it h
            · rw [List.mem_singleton] at h
              subst h
              show item.retry_count + 1 ≤ 2
              omega
          have hih := ih (rest ++ [⟨item.id, item.retry_count + 1⟩]) hq'
          rw [retryPotential_append, retryPotential_singleton] at hih
          have htr : drainTrace fails (n + 1) (item :: rest)
              = item :: drainTrace fails n (rest ++ [⟨item.id, item.retry_count + 1⟩]) := by
            simp [drainTrace, hf, hlt]
          rw [htr, execCount_cons]
          simp only [retryPotential]
          by_cases hid : item.id = i <;> simp [hid] at hih ⊢ <;> omega
        · have hih := ih rest hrest
          have htr : drainTrace fails (n + 1) (item :: rest)
              = item :: drainTrace fails n rest := by
            simp [drainTrace, hf, hlt]
          rw [htr, execCount_cons]
          simp only [retryPotential]
          by_cases hid : item.id = i <;> simp [hid] <;> omega
      · have hih := ih rest hrest
        have htr : drainTrace fails (n + 1) (item :: rest)
            = item :: drainTrace fails n rest := by
          simp [drainTrace, hf]
        rw [htr, execCount_cons]
        simp only [retryPotential]
        by_cases hid : item.id = i <;> simp [hid] <;> omega

/-- C4: in the drain loop, an item whose handler raises with incremented
retry_count still below 3 is re-appended at the tail, an item whose
incremented retry_count reaches 3 is dropped (the trace simply continues
with the rest of the queue), a dropped id with no other occurrence in the
queue is never executed again, and the number of handler executions of
any id is bounded by its retry potential, so an item enqueued with
retry_count 0 is executed at most 3 times, never indefinitely. -/
theorem C4_retry_ceiling (fails : Nat → Nat → Bool) (i : Nat) :
    (∀ fuel q, (∀ item ∈ q, item.retry_count ≤ 2) →
      execCount i (drainTrace fails fuel q) ≤ retryPotential i q) ∧
    (∀ fuel (item : QItem) rest, fails item.id item.retry_count = true →
      item.retry_count + 1 < 3 →
      drainTrace fails (fuel + 1) (item :: rest)
        = item :: drainTrace fails fuel (rest ++ [⟨item.id, item.retry_count + 1⟩])) ∧
    (∀ fuel (item : QItem) rest, fails item.id item.retry_count = true →
      ¬ item.retry_count + 1 < 3 →
      drainTrace fails (fuel + 1) (item :: rest) = item :: drainTrace fails fuel rest) ∧
    (∀ fuel rest, (∀ item ∈ rest, item.retry_count ≤ 2) →
      retryPotential i rest = 0 →
      execCount i (drainTrace fails fuel rest) = 0) := by
  refine ⟨drain_execCount_le fails i, ?_, ?_, ?_⟩
  · intro fuel item rest hf hlt
    simp [drainTrace, hf, hlt]
  · intro fuel item rest hf hlt
    simp [drainTrace, hf, hlt]
  · intro fuel rest h1 h2
    have := drain_execCount_le fails i fuel rest h1
    omega

/-- The oracle of a handler that raises on every execution. -/
def allFail : Nat → Nat → Bool := fun _ _ => true

theorem C4_retry_ceiling_witness :
    drainTrace allFail 10 [⟨0, 0⟩] = [⟨0, 0⟩, ⟨0, 1⟩, ⟨0, 2⟩] ∧
    execCount 0 (drainTrace allFail 10 [⟨0, 0⟩]) ≤ retryPotential 0 [⟨0, 0⟩] :=
  ⟨by decide, (C4_retry_ceiling allFail 0).1 10 [⟨0, 0⟩] (by decide)⟩

/-- One logical asyncio task touching the RequestQueue: a pending
add_request call carrying the item it will enqueue, or a _process_queue
task in one of its phases.  Every async-with block in the source contains
no await, so each such block is one atomic segment and the phase
boundaries below are exactly the await points. -/
inductive RTask
  | addReq (item : QItem)
  | drainStart
  | drainLoop
  | drainInHandler (item : QItem)
  | drainSleeping (item : QItem)
deriving DecidableEq

/-- Shared state of the RequestQueue (self.queue and self.processing)
together with the live asyncio tasks. -/
structure RQState where
  queue : List QItem
  processing : Bool
  tasks : List RTask
deriving DecidableEq

/-- A scheduler choice: run the next atomic segment of task i, or let the
handler awaited by task i return (success or failure). -/
inductive RAction
  | run (i : Nat)
  | handlerReturns (i : Nat) (success : Bool)
deriving DecidableEq

/-- One interleaving step of the RequestQueue code.  addReq is the body of
add_request (append the item; spawn a _process_queue task iff processing
is false); drainStart is the first segment of _process_queue (set the
processing flag); drainLoop is the top of its while loop (clear the flag
and finish when the queue is empty, else pop the head); a handler return
either continues the loop or, on failure, increments retry_count and
either sleeps before re-appending (count below 3) or drops the item;
drainSleeping re-appends the failed item at the tail after the backoff. -/
def RQStep (s : RQState) : RAction → Option RQState
  | .run i =>
    match s.tasks[i]? with
    | some (.addReq item) =>
      let spawned := if s.processing then [] else [RTask.drainStart]
      some ⟨s.queue ++ [item], s.processing, s.tasks.eraseIdx i ++ spawned⟩
    | some .drainStart =>
      some ⟨s.queue, true, s.tasks.set i .drainLoop⟩
    | some .drainLoop =>
      match s.queue with
      | [] => some ⟨[], false, s.tasks.eraseIdx i⟩
      | item :: rest => some ⟨rest, s.processing, s.tasks.set i (.drainInHandler item)⟩
    | some (.drainSleeping item) =>
      some ⟨s.queue ++ [item], s.processing, s.tasks.set i .drainLoop⟩
    | _ => none
  | .handlerReturns i success =>
    match s.tasks[i]? with
    | some (.drainInHandler item) =>
      if success then some ⟨s.queue, s.processing, s.tasks.set i .drainLoop⟩
      else
        if item.retry_count + 1 < 3 then
          some ⟨s.queue, s.processing,
            s.tasks.set i (.drainSleeping ⟨item.id, item.retry_count + 1⟩)⟩
        else some ⟨s.queue, s.processing, s.tasks.set i .drainLoop⟩
    | _ => none

/-- Run a concrete schedule of steps. -/
def runRQ (s : RQState) : List RAction → Option RQState
  | [] => some s
  | a :: rest =>
    match RQStep s a with
    | some s' => runRQ s' rest
    | none => none

/-- Number of tasks currently executing a queued handler. -/
def numInHandler (ts : List RTask) : Nat :=
  (ts.filter (fun t => match t with | .drainInHandler _ => true | _ => false)).length

/-- Initial state for a set of concurrent add_request callers: empty
queue, processing flag clear. -/
def initRQState (items : List QItem) : RQState :=
  ⟨[], false, items.map RTask.addReq⟩

/-- C8 counterexample: two add_request calls that both run before either
spawned _process_queue task has started each observe processing = false
and each spawn a drain task; the two drain loops then pop different items
and execute their handlers at the same time, reaching a state with two
concurrent queued handler executions — the drain loop is not single-flight
in every reachable interleaving. -/
theorem C8_cex :
    (runRQ (initRQState [⟨1, 0⟩, ⟨2, 0⟩])
        [.run 0, .run 0, .run 0, .run 1, .run 0, .run 1]).map
      (fun s => numInHandler s.tasks) = some 2 := by decide

/-- C8 amended: the single-flight flag takes effect only once a spawned
drain task has run its first segment: when processing is already true, an
add_request step appends its item and spawns no new drain task, so the
set of drain tasks does not grow.  Before any spawned drain task has
started, interleaved add_request calls can each spawn a drain loop and
two drain loops can run handlers concurrently (see the counterexample). -/
theorem C8_single_flight_after_start (s : RQState) (i : Nat) (item : QItem)
    (hp : s.processing = true) (ht : s.tasks[i]? = some (.addReq item)) :
    RQStep s (.run i) = some ⟨s.queue ++ [item], true, s.tasks.eraseIdx i⟩ := by
  simp [RQStep, ht, hp]

theorem C8_single_flight_after_start_witness :
    RQStep ⟨[], true, [RTask.addReq ⟨7, 0⟩]⟩ (.run 0)
      = some ⟨[⟨7, 0⟩], true, []⟩ := by
  simpa using C8_single_flight_after_start ⟨[], true, [RTask.addReq ⟨7, 0⟩]⟩ 0 ⟨7, 0⟩
    rfl (by decide)

/-- UTF-8 bytes of one character (cache_input.encode() in APICache._get_key). -/
def charUtf8 (c : Char) : List Nat :=
  let n := c.toNat
  if n < 128 then [n]
  else if n < 2048 then [192 + n / 64, 128 + n % 64]
  else if n < 65536 then [224 + n / 4096, 128 + (n / 64) % 64, 128 + n % 64]
  else [240 + n / 262144, 128 + (n / 4096) % 64, 128 + (n / 64) % 64, 128 + n % 64]

/-- UTF-8 encoding of a string as a byte list. -/
def strUtf8 (s : String) : List Nat :=
  s.data.foldr (fun c acc => charUtf8 c ++ acc) []

/-- Right rotation of a 32-bit word. -/
def rotr32 (n x : Nat) : Nat :=
  ((x >>> n) ||| (x <<< (32 - n))) % 4294967296

/-- SHA-256 round constants. -/
def shaK : List Nat :=
  [1116352408, 1899447441, 3049323471, 3921009573, 961987163,
   1508970993, 2453635748, 2870763221, 3624381080, 310598401,
   607225278, 1426881987, 1925078388, 2162078206, 2614888103,
   3248222580, 3835390401, 4022224774, 264347078, 604807628,
   770255983, 1249150122, 1555081692, 1996064986, 2554220882,
   2821834349, 2952996808, 3210313671, 3336571891, 3584528711,
   113926993, 338241895, 666307205, 773529912, 1294757372,
   1396182291, 1695183700, 1986661051, 2177026350, 2456956037,
   2730485921, 2820302411, 3259730800, 3345764771, 3516065817,
   3600352804, 4094571909, 275423344, 430227734, 506948616,
   659060556, 883997877, 958139571, 1322822218, 1537002063,
   1747873779, 1955562222, 2024104815, 2227730452, 2361852424,
   2428436474, 2756734187, 3204031479, 3329325298]

/-- SHA-256 initial hash value. -/
def shaH0 : List Nat :=
  [1779033703, 3144134277, 1013904242,
   2773480762, 1359893119, 2600822924,
   528734635, 1541459225]

/-- SHA-256 message padding: a 0x80 byte, zeros to 56 mod 64, then the
bit length as 8 big-endian bytes. -/
def sha256Pad (msg : List Nat) : List Nat :=
  let len := msg.length
  let padZeros := (119 - (len % 64)) % 64
  msg ++ 128 :: List.replicate padZeros 0
    ++ [56, 48, 40, 32, 24, 16, 8, 0].map (fun sh => ((8 * len) >>> sh) % 256)

/-- Big-endian 32-bit words from a byte list. -/
def bytesToWords : List Nat → List Nat
  | b0 :: b1 :: b2 :: b3 :: rest =>
    (((b0 * 256 + b1) * 256 + b2) * 256 + b3) :: bytesToWords rest
  | _ => []

def smallSigma0 (x : Nat) : Nat := (rotr32 7 x) ^^^ (rotr32 18 x) ^^^ (x >>> 3)

def smallSigma1 (x : Nat) : Nat := (rotr32 17 x) ^^^ (rotr32 19 x) ^^^ (x >>> 10)

def bigSigma0 (x : Nat) : Nat := (rotr32 2 x) ^^^ (rotr32 13 x) ^^^ (rotr32 22 x)

def bigSigma1 (x : Nat) : Nat := (rotr32 6 x) ^^^ (rotr32 11 x) ^^^ (rotr32 25 x)

/-- Extend the 16 message-schedule words to 64. -/
def extendSchedule : Nat → List Nat → List Nat
  | 0, w => w
  | k + 1, w =>
    let t := w.length
    let nw := (w.getD (t - 16) 0 + smallSigma0 (w.getD (t - 15) 0)
      + w.getD (t - 7) 0 + smallSigma1 (w.getD (t - 2) 0)) % 4294967296
    extendSchedule k (w ++ [nw])

/-- Working variables a..h of the SHA-256 compression loop. -/
structure SHAState where
  a : Nat
  b : Nat
  c : Nat
  d : Nat
  e : Nat
  f : Nat
  g : Nat
  h : Nat

/-- One SHA-256 compression round. -/
def shaRound (ks ws : Nat) (s : SHAState) : SHAState :=
  let ch := (s.e &&& s.f) ^^^ ((s.e ^^^ 4294967295) &&& s.g)
  let t1 := (s.h + bigSigma1 s.e + ch + ks + ws) % 4294967296
  let mj := ((s.a &&& s.b) ^^^ (s.a &&& s.c)) ^^^ (s.b &&& s.c)
  let t2 := (bigSigma0 s.a + mj) % 4294967296
  ⟨(t1 + t2) % 4294967296, s.a, s.b, s.c, (s.d + t1) % 4294967296, s.e, s.f, s.g⟩

/-- Compress one 64-byte block into the running hash words. -/
def compressBlock (hw : List Nat) (block : List Nat) : List Nat :=
  let w := extendSchedule 48 (bytesToWords block)
  let init : SHAState := ⟨hw.getD 0 0, hw.getD 1 0, hw.getD 2 0, hw.getD 3 0,
    hw.getD 4 0, hw.getD 5 0, hw.getD 6 0, hw.getD 7 0⟩
  let fin := (List.range 64).foldl
    (fun s t => shaRound (shaK.getD t 0) (w.getD t 0) s) init
  [(hw.getD 0 0 + fin.a) % 4294967296, (hw.getD 1 0 + fin.b) % 4294967296,
   (hw.getD 2 0 + fin.c) % 4294967296, (hw.getD 3 0 + fin.d) % 4294967296,
   (hw.getD 4 0 + fin.e) % 4294967296, (hw.getD 5 0 + fin.f) % 4294967296,
   (hw.getD 6 0 + fin.g) % 4294967296, (hw.getD 7 0 + fin.h) % 4294967296]

/-- Fold the compression over the given number of 64-byte blocks. -/
def sha256Chunks : Nat → List Nat → List Nat → List Nat
  | 0, hw, _ => hw
  | n + 1, hw, bytes => sha256Chunks n (compressBlock hw (bytes.take 64)) (bytes.drop 64)

/-- Lowercase hex digit. -/
def hexChar (n : Nat) : Char :=
  if n < 10 then Char.ofNat (48 + n) else Char.ofNat (87 + n)

/-- Eight lowercase hex digits of a 32-bit word, most significant first. -/
def wordHex (w : Nat) : List Char :=
  (List.range 8).map (fun i => hexChar ((w >>> (28 - 4 * i)) % 16))

/-- hashlib.sha256(s.encode()).hexdigest(). -/
def sha256Hex (s : String) : String :=
  let bytes := sha256Pad (strUtf8 s)
  let hw := sha256Chunks (bytes.length / 64) shaH0 bytes
  String.mk (hw.foldr (fun w acc => wordHex w ++ acc) [])

set_option maxRecDepth 1000000

/-- Sanity check of the SHA-256 embedding against the standard test
vector. -/
theorem sha256Hex_abc : sha256Hex "abc"
    = "ba7816bf8f01cfea414140de5dae2223b00361a396177a9cb410ff61f20015ad" := by decide

/-- A single-quote character (Python repr of a string of ours uses single
quotes). -/
def sglq : String := String.singleton (Char.ofNat 39)

/-- Code-point lexicographic comparison of character lists: exactly the
Python string ordering. -/
def charListLt : List Char → List Char → Bool
  | [], [] => false
  | [], _ :: _ => true
  | _ :: _, [] => false
  | a :: as, b :: bs =>
    if a.toNat < b.toNat then true
    else if b.toNat < a.toNat then false
    else charListLt as bs

/-- Python string less-than. -/
def strLt (a b : String) : Bool := charListLt a.data b.data

/-- Insert into a sorted list (stable insertion). -/
def insertSorted {α : Type} (le : α → α → Bool) (x : α) : List α → List α
  | [] => [x]
  | y :: ys => if le x y then x :: y :: ys else y :: insertSorted le x ys

/-- Insertion sort; on lists of pairwise-distinct pairs this is exactly
the order produced by the Python builtin sorted. -/
def insertionSort {α : Type} (le : α → α → Bool) : List α → List α
  | [] => []
  | x :: xs => insertSorted le x (insertionSort le xs)

/-- Lexicographic comparison of string pairs, as Python compares the
tuples of dict.items(). -/
def pairLe (a b : String × String) : Bool :=
  strLt a.1 b.1 || (a.1 == b.1 && (strLt a.2 b.2 || a.2 == b.2))

/-- Python repr of a tuple of two strings. -/
def tupleRepr (p : String × String) : String :=
  "(" ++ sglq ++ p.1 ++ sglq ++ ", " ++ sglq ++ p.2 ++ sglq ++ ")"

/-- Python str of sorted(params.items()). -/
def sortedItemsRepr (params : List (String × String)) : String :=
  "[" ++ String.intercalate ", " ((insertionSort pairLe params).map tupleRepr) ++ "]"

/-- json.dumps(body, sort_keys=True) for a flat dict with plain string
keys and values. -/
def jsonDumpsSorted (body : List (String × String)) : String :=
  "\x7b" ++ String.intercalate ", "
    ((insertionSort pairLe body).map
      (fun p => "\"" ++ p.1 ++ "\": \"" ++ p.2 ++ "\"")) ++ "\x7d"

/-- The canonical string built by APICache._get_key: method:url, then
:params:(sorted items) when params is truthy (non-empty), then
:body:(key-sorted JSON) when body is truthy. -/
def cacheInput (method url : String) (params body : List (String × String)) : String :=
  let s := method ++ ":" ++ url
  let s := if params.isEmpty then s else s ++ ":params:" ++ sortedItemsRepr params
  if body.isEmpty then s else s ++ ":body:" ++ jsonDumpsSorted body

/-- APICache._get_key: the SHA-256 hex digest of the canonical string. -/
def get_key (method url : String) (params body : List (String × String)) : String :=
  sha256Hex (cacheInput method url params body)

/-- Sanity check of _get_key against the Python implementation (digest of
GET:http://h/x:params:[(a, 1)] with single quotes around a and 1). -/
theorem get_key_ref1 : get_key "GET" "http://h/x" [("a", "1")] []
    = "075266da49f7883ac305076f899457bce90cde70edf7a8fb7c7689caebe9722f" := by decide

/-- Sanity check of _get_key with unsorted params and body present. -/
theorem get_key_ref2 : get_key "GET" "http://h/x" [("b", "2"), ("a", "1")] [("z", "9"), ("y", "8")]
    = "45d1f060d89ebb756d2c5da80b2ed6cda6f68ee569a8b0bbec429a6508461795" := by decide

/-- Sanity check of _get_key with both optional components absent. -/
theorem get_key_ref3 : get_key "GET" "http://h/x" [] []
    = "2567825625b2adc77fd895b5fad0c35f3c8b5b062b25ebd6fe4d7f6193617b67" := by decide

/-- Result value of a wrapped handler: a flat dict, which is Python-falsy
exactly when it is empty. -/
abbrev ResultDict := List (String × String)

/-- One stored cache entry: the data and the time it was stored
(the inner dict with keys data and timestamp). -/
structure CacheEntry where
  data : ResultDict
  timestamp : Int
deriving DecidableEq

/-- State of APICache: the key-indexed store (self.cache) and the TTL in
seconds (self.ttl, 300 by default). -/
structure APICache where
  cache : List (String × CacheEntry)
  ttl : Int
deriving DecidableEq

/-- APICache.get: on a stored entry whose age is below the TTL return its
data and leave the store unchanged; on an expired entry delete it and
return none; on a missing key return none. -/
def cacheGet (c : APICache) (now : Int) (method url : String)
    (params body : List (String × String)) : Option ResultDict × APICache :=
  let key := get_key method url params body
  match c.cache.lookup key with
  | some entry =>
    if now - entry.timestamp < c.ttl then (some entry.data, c)
    else (none, ⟨c.cache.filter (fun kv => !(kv.1 == key)), c.ttl⟩)
  | none => (none, c)

/-- APICache.set: store the data under the key with the current time;
dict assignment replaces any previous entry for that key and removes
nothing else. -/
def cacheSet (c : APICache) (now : Int) (method url : String)
    (params body : List (String × String)) (data : ResultDict) : APICache :=
  let key := get_key method url params body
  ⟨(key, ⟨data, now⟩) :: c.cache.filter (fun kv => !(kv.1 == key)), c.ttl⟩

theorem lookup_filterKey_self {β : Type} (l : List (String × β)) (k : String) :
    (l.filter (fun kv => !(kv.1 == k))).lookup k = none := by
  induction l with
  | nil => rfl
  | cons a t ih =>
    by_cases ha : a.1 = k
    · simp [List.filter_cons, ha, ih]
    · have h1 : (a.1 == k) = false := beq_eq_false_iff_ne.mpr ha
      have h2 : (k == a.1) = false := beq_eq_false_iff_ne.mpr (Ne.symm ha)
      simp [List.filter_cons, List.lookup, h1, h2, ih]

theorem lookup_filterKey_ne {β : Type} (l : List (String × β)) (k k' : String)
    (hne : k' ≠ k) :
    (l.filter (fun kv => !(kv.1 == k))).lookup k' = l.lookup k' := by
  induction l with
  | nil => rfl
  | cons a t ih =>
    by_cases ha : a.1 = k
    · have hk' : (k' == a.1) = false := beq_eq_false_iff_ne.mpr (ha ▸ hne)
      have hkk : (k' == k) = false := beq_eq_false_iff_ne.mpr hne
      simp [List.filter_cons, ha, List.lookup, hk', hkk, ih]
    · have : (a.1 == k) = false := beq_eq_false_iff_ne.mpr ha
      by_cases hk' : k' = a.1
      · simp [List.filter_cons, this, List.lookup, hk']
      · have hk'' : (k' == a.1) = false := beq_eq_false_iff_ne.mpr hk'
        simp [List.filter_cons, this, List.lookup, hk'', ih]

theorem lookup_cacheSet_self (c : APICache) (now : Int) (method url : String)
    (params body : List (String × String)) (data : ResultDict) :
    (cacheSet c now method url params body data).cache.lookup
      (get_key method url params body) = some ⟨data, now⟩ := by
  simp [cacheSet, List.lookup]

/-- C6: on every lookup, a stored entry whose age has reached the TTL is
deleted and none is returned, an unexpired entry is returned with the
store unchanged, and keys other than the looked-up one are never touched;
cacheSet only adds or replaces the entry of its own key and removes no
other entry, so expiry happens only lazily at lookup time. -/
theorem C6_lazy_expiry (c : APICache) (now : Int) (method url : String)
    (params body : List (String × String)) :
    (∀ entry, c.cache.lookup (get_key method url params body) = some entry →
      (c.ttl ≤ now - entry.timestamp →
        (cacheGet c now method url params body).1 = none ∧
        (cacheGet c now method url params body).2.cache.lookup
          (get_key method url params body) = none) ∧
      (now - entry.timestamp < c.ttl →
        cacheGet c now method url params body = (some entry.data, c))) ∧
    (∀ k', k' ≠ get_key method url params body →
      (cacheGet c now method url params body).2.cache.lookup k'
        = c.cache.lookup k') ∧
    (∀ data k',
      ((cacheSet c now method url params body data).cache.lookup k').isSome
        = (k' == get_key method url params body || (c.cache.lookup k').isSome)) := by
  refine ⟨?_, ?_, ?_⟩
  · intro entry hl
    constructor
    · intro hexp
      have hlt : ¬ now - entry.timestamp < c.ttl := not_lt.mpr hexp
      simp [cacheGet, hl, hlt, lookup_filterKey_self]
    · intro hfresh
      simp [cacheGet, hl, hfresh]
  · intro k' hne
    match hl : c.cache.lookup (get_key method url params body) with
    | some entry =>
      by_cases hfresh : now - entry.timestamp < c.ttl
      · simp [cacheGet, hl, hfresh]
      · simp [cacheGet, hl, hfresh, lookup_filterKey_ne _ _ _ hne]
    | none => simp [cacheGet, hl]
  · intro data k'
    by_cases hk : k' = get_key method url params body
    · subst hk
      simp [lookup_cacheSet_self]
    · have hkb : (k' == get_key method url params body) = false :=
        beq_eq_false_iff_ne.mpr hk
      simp [cacheSet, List.lookup, hkb, lookup_filterKey_ne _ _ _ hk]

theorem C6_lazy_expiry_witness :
    (cacheGet ⟨[(get_key "GET" "u" [] [], ⟨[("a", "b")], 0⟩)], 300⟩
        300 "GET" "u" [] []).1 = none ∧
    (cacheGet ⟨[(get_key "GET" "u" [] [], ⟨[("a", "b")], 0⟩)], 300⟩
        300 "GET" "u" [] []).2.cache.lookup (get_key "GET" "u" [] []) = none ∧
    cacheGet ⟨[(get_key "GET" "u" [] [], ⟨[("a", "b")], 0⟩)], 300⟩ 10 "GET" "u" [] []
      = (some [("a", "b")], ⟨[(get_key "GET" "u" [] [], ⟨[("a", "b")], 0⟩)], 300⟩) :=
  have h1 := (C6_lazy_expiry ⟨[(get_key "GET" "u" [] [], ⟨[("a", "b")], 0⟩)], 300⟩
    300 "GET" "u" [] []).1 ⟨[("a", "b")], 0⟩ (by simp [List.lookup]) |>.1 (by decide)
  have h2 := (C6_lazy_expiry ⟨[(get_key "GET" "u" [] [], ⟨[("a", "b")], 0⟩)], 300⟩
    10 "GET" "u" [] []).1 ⟨[("a", "b")], 0⟩ (by simp [List.lookup]) |>.2 (by decide)
  ⟨h1.1, h1.2, h2⟩

/-- The request fields the decorator wrapper reads: method, full URL and
query parameters (a dict, so keys are unique). -/
structure Req where
  method : String
  url : String
  query_params : List (String × String)
deriving DecidableEq

/-- A queued invocation as appended by RequestQueue.add_request from the
wrapper: the original call (func and args summarised by the request
method and URL), the enqueue timestamp and the initial retry_count 0. -/
structure QueuedCall where
  method : String
  url : String
  timestamp : Int
  retry_count : Nat
deriving DecidableEq

/-- Return value of one wrapper invocation: the queued acknowledgment
dict (carrying the queue position) on rejection, or a handler or cached
value on admission. -/
inductive WrapperResult
  | queued (position : Nat)
  | value (r : ResultDict)
deriving DecidableEq

/-- The module-level singletons the wrapper touches: rate_limiter,
request_queue and api_cache. -/
structure PipeState where
  limiter : RateLimitManager
  queue : List QueuedCall
  cache : APICache
deriving DecidableEq

/-- A Python exception raised by the decorator path. -/
inductive PyError
  | attributeError (msg : String)
  | valueError (msg : String)
deriving DecidableEq

/-- Faithful execution of rate_limit_with_cache.wrapper.  When no Request
is found among the arguments the wrapper raises ValueError (line 274).
Otherwise its first statement, identifier =
rate_limiter.get_identifier(request) (line 277), raises AttributeError
unconditionally: the module-level rate_limiter is a RateLimitManager,
which defines no get_identifier — that method exists only on
RateLimitMiddleware, and nothing in the repository defines or reassigns
another one.  The error occurs outside any try block, so it propagates
to the caller; the limiter check, the enqueue with its except-branch
HTTPException fallback (lines 280-294), the cache lookup and the handler
invocation (lines 296-323) are unreachable.  The result records the
raised error, whether the wrapped handler ran (never), and the state
afterwards (untouched). -/
def wrapperRun (limit_type : String) (now : Int) (req : Option Req)
    (handler : ResultDict) (s : PipeState) :
    Except PyError WrapperResult × Bool × PipeState :=
  match req with
  | none =>
    (.error (.valueError "Request object not found in function arguments"), false, s)
  | some _ =>
    (.error (.attributeError "RateLimitManager object has no attribute get_identifier"),
     false, s)

theorem wordHex_length (w : Nat) : (wordHex w).length = 8 := by
  simp [wordHex]

theorem compressBlock_length (hw block : List Nat) :
    (compressBlock hw block).length = 8 := rfl

theorem sha256Chunks_length (n : Nat) :
    ∀ hw bytes, hw.length = 8 → (sha256Chunks n hw bytes).length = 8 := by
  induction n with
  | zero => intro hw bytes h; simpa [sha256Chunks] using h
  | succ k ih =>
    intro hw bytes h
    simpa [sha256Chunks] using ih _ (bytes.drop 64) (compressBlock_length hw (bytes.take 64))

theorem foldr_wordHex_length (l : List Nat) :
    (l.foldr (fun w acc => wordHex w ++ acc) []).length = 8 * l.length := by
  induction l with
  | nil => rfl
  | cons a t ih => simp [List.foldr, wordHex_length, ih]; ring

theorem sha256Hex_length (s : String) : (sha256Hex s).length = 64 := by
  have h8 := sha256Chunks_length ((sha256Pad (strUtf8 s)).length / 64) shaH0
    (sha256Pad (strUtf8 s)) rfl
  simp [sha256Hex, String.length, foldr_wordHex_length, h8]

set_option maxHeartbeats 1000000

/-- C3: the claimed cache idempotence is the documented purpose of the
decorator, but the code cannot exhibit it: every call through
rate_limit_with_cache.wrapper raises AttributeError at its first
statement (line 277) — RateLimitManager defines no get_identifier —
before the limiter, the cache and the handler.  No pipeline invocation
is ever admitted, two identical calls invoke the wrapped handler zero
times rather than exactly once, the state is untouched and the raised
error is all a caller observes. -/
theorem C3_wrapper_raises :
    (∀ lt now (req : Req) handler s,
      wrapperRun lt now (some req) handler s
        = (.error (.attributeError
            "RateLimitManager object has no attribute get_identifier"), false, s)) ∧
    wrapperRun "authenticated" 0 (some ⟨"GET", "http://h/x", [("a", "1")]⟩)
        [("r", "ok")] ⟨⟨[]⟩, [], ⟨[], 300⟩⟩
      = (.error (.attributeError
          "RateLimitManager object has no attribute get_identifier"), false,
         ⟨⟨[]⟩, [], ⟨[], 300⟩⟩) ∧
    wrapperRun "authenticated" 1 (some ⟨"GET", "http://h/x", [("a", "1")]⟩)
        [("r", "ok")]
        (wrapperRun "authenticated" 0 (some ⟨"GET", "http://h/x", [("a", "1")]⟩)
          [("r", "ok")] ⟨⟨[]⟩, [], ⟨[], 300⟩⟩).2.2
      = (.error (.attributeError
          "RateLimitManager object has no attribute get_identifier"), false,
         ⟨⟨[]⟩, [], ⟨[], 300⟩⟩) :=
  ⟨fun _ _ _ _ _ => rfl, rfl, rfl⟩

/-- C9: the truthiness re-computation the claim describes is the logic
of lines 303-323, but that logic is dead: the wrapper raises
AttributeError at line 277 on every call, so a falsy handler result is
never produced, never stored in the cache and never re-computed — after
two identical calls the cache still has no entry under the computed key
and the wrapped handler was never invoked. -/
theorem C9_falsy_never_reached :
    (∀ lt now (req : Req) s,
      (wrapperRun lt now (some req) [] s).2.1 = false ∧
      (wrapperRun lt now (some req) [] s).2.2.cache = s.cache) ∧
    (wrapperRun "authenticated" 1 (some ⟨"GET", "http://h/x", []⟩) []
        (wrapperRun "authenticated" 0 (some ⟨"GET", "http://h/x", []⟩) []
          ⟨⟨[]⟩, [], ⟨[], 300⟩⟩).2.2).2.2.cache.cache.lookup
      (get_key "GET" "http://h/x" [] []) = none ∧
    (wrapperRun "authenticated" 1 (some ⟨"GET", "http://h/x", []⟩) []
        (wrapperRun "authenticated" 0 (some ⟨"GET", "http://h/x", []⟩) []
          ⟨⟨[]⟩, [], ⟨[], 300⟩⟩).2.2).2.1 = false :=
  ⟨fun _ _ _ _ => ⟨rfl, rfl⟩, rfl, rfl⟩

/-- The request descriptor RateLimitMiddleware reads: the authenticated
user id when request.state has one, the direct client address when the
connection exposes one, the x-forwarded-for header when present, and the
URL. -/
structure HttpRequest where
  user_id : Option String
  client_host : Option String
  forwarded_for : Option String
  url : String
deriving DecidableEq

/-- Python str.strip: drop leading and trailing whitespace. -/
def pyStrip (s : String) : String :=
  String.mk (((s.data.dropWhile Char.isWhitespace).reverse.dropWhile Char.isWhitespace).reverse)

/-- forwarded_for.split(",")[0]: the prefix before the first comma. -/
def beforeComma (s : String) : String :=
  String.mk (s.data.takeWhile (fun c => !(c == ',')))

/-- The ip branch of get_identifier: the first forwarded-for entry when
the header is truthy, else the direct client address, else unknown. -/
def ipIdentifier (req : HttpRequest) : String :=
  let ch := req.client_host.getD "unknown"
  match req.forwarded_for with
  | some ff => if ff ≠ "" then "ip:" ++ pyStrip (beforeComma ff) else "ip:" ++ ch
  | none => "ip:" ++ ch

/-- RateLimitMiddleware.get_identifier: user scoped when a truthy user id
is present, ip scoped otherwise. -/
def get_identifier (req : HttpRequest) : String :=
  match req.user_id with
  | some uid => if uid ≠ "" then "user:" ++ uid else ipIdentifier req
  | none => ipIdentifier req

/-- Occurrence test of a character-list needle inside a haystack. -/
def containsSub (needle : List Char) : List Char → Bool
  | [] => needle.isEmpty
  | c :: rest => needle.isPrefixOf (c :: rest) || containsSub needle rest

/-- Python "needle in hay" on strings. -/
def strContains (hay needle : String) : Bool :=
  containsSub needle.data hay.data

/-- Python str.startswith as used on the identifier. -/
def strStarts (s pre : String) : Bool :=
  pre.data.isPrefixOf s.data

/-- RateLimitMiddleware.get_limit_type: api_external when the URL mentions
/api/gemini or gemini, else authenticated for user-scoped identifiers,
else unauthenticated. -/
def get_limit_type (req : HttpRequest) (identifier : String) : String :=
  if strContains req.url "/api/gemini" || strContains req.url "gemini" then "api_external"
  else if strStarts identifier "user:" then "authenticated"
  else "unauthenticated"

/-- An outbound HTTP response: status code, body content and headers. -/
structure HttpResponse where
  status : Nat
  content : String
  headers : List (String × String)
deriving DecidableEq

/-- RateLimitMiddleware.dispatch: derive the identifier and limit type and
check the limiter.  On rejection build the 429 response with the
rate-limit headers and Retry-After; this path never touches the retry
queue, which is threaded through unchanged to make that explicit.  On
admission forward the downstream response (call_next) with the rate-limit
headers attached, where remaining counts the just-recorded request. -/
def dispatch (m : RateLimitManager) (q : List QueuedCall) (now : Int)
    (req : HttpRequest) (downstream : HttpResponse) :
    HttpResponse × RateLimitManager × List QueuedCall :=
  let identifier := get_identifier req
  let limit_type := get_limit_type req identifier
  let al := is_allowed m now identifier limit_type
  if !al.1 then
    let reset_time := get_reset_time al.2 now identifier limit_type
    let retry_after := max 0 (reset_time - now)
    (⟨429, "Rate limit exceeded",
      [("X-RateLimit-Limit", toString (getLimitConfig limit_type).requests),
       ("X-RateLimit-Remaining", "0"),
       ("X-RateLimit-Reset", toString reset_time),
       ("Retry-After", toString retry_after)]⟩, al.2, q)
  else
    let cfg := getLimitConfig limit_type
    let times := getDeque al.2 identifier
    let remaining := max 0 ((cfg.requests : Int) - times.length)
    (⟨downstream.status, downstream.content,
      downstream.headers ++
        [("X-RateLimit-Limit", toString cfg.requests),
         ("X-RateLimit-Remaining", toString remaining),
         ("X-RateLimit-Reset",
          toString (get_reset_time al.2 now identifier limit_type))]⟩, al.2, q)

/-- C5 counterexample: a rejected invocation through the middleware
returns the 429 response but leaves the retry queue untouched — nothing
is enqueued — and the decorator path, the only code that would enqueue,
raises AttributeError before its limiter check and leaves its queue
untouched as well, so no rejected invocation is ever best-effort
enqueued, refuting the claimed conjunction. -/
theorem C5_cex :
    (dispatch ⟨[("ip:1.2.3.4", List.replicate 50 0)]⟩ [] 0
        ⟨none, some "1.2.3.4", none, "http://h/x"⟩ ⟨200, "ok", []⟩).1.status = 429 ∧
    (dispatch ⟨[("ip:1.2.3.4", List.replicate 50 0)]⟩ [] 0
        ⟨none, some "1.2.3.4", none, "http://h/x"⟩ ⟨200, "ok", []⟩).2.2 = [] ∧
    (wrapperRun "unauthenticated" 0 (some ⟨"GET", "http://h/x", []⟩) [("r", "1")]
        ⟨⟨[("ip:1.2.3.4", List.replicate 50 0)]⟩, [], ⟨[], 300⟩⟩).2.2.queue = [] :=
  ⟨by decide, by decide, rfl⟩

/-- C5 amended: for every invocation rejected by the limiter in the
middleware path, the pipeline returns HTTP 429 with body
Rate limit exceeded and headers X-RateLimit-Limit,
X-RateLimit-Remaining = 0, X-RateLimit-Reset and
Retry-After = max(0, resetTime - now), and nothing is enqueued onto the
RetryQueue: dispatch never touches the queue, and the decorator path —
the only code that would enqueue — raises AttributeError at line 277
before its limiter check, leaving its queue untouched and propagating
the error instead of returning any acknowledgment or headers. -/
theorem C5_rejection_paths (m : RateLimitManager) (q : List QueuedCall) (now : Int)
    (req : HttpRequest) (downstream : HttpResponse)
    (h : (is_allowed m now (get_identifier req)
        (get_limit_type req (get_identifier req))).1 = false) :
    (dispatch m q now req downstream).1
      = ⟨429, "Rate limit exceeded",
         [("X-RateLimit-Limit",
           toString (getLimitConfig (get_limit_type req (get_identifier req))).requests),
          ("X-RateLimit-Remaining", "0"),
          ("X-RateLimit-Reset",
           toString (get_reset_time
             (is_allowed m now (get_identifier req) (get_limit_type req (get_identifier req))).2
             now (get_identifier req) (get_limit_type req (get_identifier req)))),
          ("Retry-After",
           toString (max 0 (get_reset_time
             (is_allowed m now (get_identifier req) (get_limit_type req (get_identifier req))).2
             now (get_identifier req) (get_limit_type req (get_identifier req)) - now)))]⟩ ∧
    (dispatch m q now req downstream).2.2 = q ∧
    (∀ lt (r2 : Req) (h2 : ResultDict) (s : PipeState),
      (wrapperRun lt now (some r2) h2 s).2.2.queue = s.queue ∧
      (wrapperRun lt now (some r2) h2 s).1
        = .error (.attributeError
            "RateLimitManager object has no attribute get_identifier")) := by
  refine ⟨by simp [dispatch, h], by simp [dispatch, h], fun lt r2 h2 s => ⟨rfl, rfl⟩⟩

theorem C5_rejection_paths_witness :
    (dispatch ⟨[("ip:1.2.3.4", List.replicate 50 0)]⟩ [] 0
        ⟨none, some "1.2.3.4", none, "http://h/x"⟩ ⟨200, "ok", []⟩).1
      = ⟨429, "Rate limit exceeded",
         [("X-RateLimit-Limit", toString (getLimitConfig (get_limit_type
             ⟨none, some "1.2.3.4", none, "http://h/x"⟩ (get_identifier
               ⟨none, some "1.2.3.4", none, "http://h/x"⟩))).requests),
          ("X-RateLimit-Remaining", "0"),
          ("X-RateLimit-Reset",
           toString (get_reset_time
             (is_allowed ⟨[("ip:1.2.3.4", List.replicate 50 0)]⟩ 0
               (get_identifier ⟨none, some "1.2.3.4", none, "http://h/x"⟩)
               (get_limit_type ⟨none, some "1.2.3.4", none, "http://h/x"⟩
                 (get_identifier ⟨none, some "1.2.3.4", none, "http://h/x"⟩))).2
             0 (get_identifier ⟨none, some "1.2.3.4", none, "http://h/x"⟩)
             (get_limit_type ⟨none, some "1.2.3.4", none, "http://h/x"⟩
               (get_identifier ⟨none, some "1.2.3.4", none, "http://h/x"⟩)))),
          ("Retry-After",
           toString (max 0 (get_reset_time
             (is_allowed ⟨[("ip:1.2.3.4", List.replicate 50 0)]⟩ 0
               (get_identifier ⟨none, some "1.2.3.4", none, "http://h/x"⟩)
               (get_limit_type ⟨none, some "1.2.3.4", none, "http://h/x"⟩
                 (get_identifier ⟨none, some "1.2.3.4", none, "http://h/x"⟩))).2
             0 (get_identifier ⟨none, some "1.2.3.4", none, "http://h/x"⟩)
             (get_limit_type ⟨none, some "1.2.3.4", none, "http://h/x"⟩
               (get_identifier ⟨none, some "1.2.3.4", none, "http://h/x"⟩)) - 0)))]⟩ ∧
    (dispatch ⟨[("ip:1.2.3.4", List.replicate 50 0)]⟩ [] 0
        ⟨none, some "1.2.3.4", none, "http://h/x"⟩ ⟨200, "ok", []⟩).2.2 = [] ∧
    ((wrapperRun "unauthenticated" 0 (some ⟨"GET", "http://h/x", []⟩) [("r", "1")]
        ⟨⟨[("ip:1.2.3.4", List.replicate 50 0)]⟩, [], ⟨[], 300⟩⟩).2.2.queue = [] ∧
     (wrapperRun "unauthenticated" 0 (some ⟨"GET", "http://h/x", []⟩) [("r", "1")]
        ⟨⟨[("ip:1.2.3.4", List.replicate 50 0)]⟩, [], ⟨[], 300⟩⟩).1
       = .error (.attributeError
           "RateLimitManager object has no attribute get_identifier")) :=
  have H := C5_rejection_paths ⟨[("ip:1.2.3.4", List.replicate 50 0)]⟩ [] 0
    ⟨none, some "1.2.3.4", none, "http://h/x"⟩ ⟨200, "ok", []⟩ (by decide)
  ⟨H.1, H.2.1, H.2.2 "unauthenticated" ⟨"GET", "http://h/x", []⟩ [("r", "1")]
    ⟨⟨[("ip:1.2.3.4", List.replicate 50 0)]⟩, [], ⟨[], 300⟩⟩⟩
